import Mathlib

/-!
Shallow embedding of the request-handling layer of the blogicum blog
application (`blog/views.py`).  Each Django view function becomes a pure
Lean function from an explicit store and the request parameters to a
response paired with the possibly-updated store.  Collaborators that live
outside the embedded file (the ORM models, the forms, the query/pagination
helpers in `blog/utils.py` and `blog/forms.py`) are modelled from the
specification, as marked in their doc comments.
-/

namespace Blog

/-- A blog category row: id, URL slug and published flag. -/
structure Category where
  id : Nat
  slug : String
  is_published : Bool
deriving Repr, DecidableEq

/-- A blog post row: primary key, author and category references,
published flag, publication date and body text. -/
structure Post where
  id : Nat
  author : Nat
  category : Nat
  is_published : Bool
  pub_date : Int
  text : String
deriving Repr, DecidableEq

/-- A comment row: primary key, parent post and author references,
body text and creation timestamp. -/
structure Comment where
  id : Nat
  post : Nat
  author : Nat
  text : String
  created_at : Nat
deriving Repr, DecidableEq

/-- A user row: primary key, username, and the editable profile fields
(kept abstract as a field/value association list). -/
structure User where
  id : Nat
  username : String
  profileData : List (String × String)
deriving Repr, DecidableEq

/-- The relational store the handlers read and write. -/
structure Store where
  posts : List Post
  comments : List Comment
  categories : List Category
  users : List User
deriving Repr, DecidableEq

/-- HTTP request method, as far as the handlers distinguish it. -/
inductive Method where
  | get
  | post
deriving Repr, DecidableEq

/-- Redirect targets used by the handlers (`blog:post_detail`,
`blog:profile`, `blog:index`). -/
inductive Target where
  | postDetail (post_id : Nat)
  | profile (user : Nat)
  | index
deriving Repr, DecidableEq

/-- Submitted data bound to a `PostForm`.
Modelled from the spec: `PostForm` (blog/forms.py is excluded code); it
carries the editable post fields and an overall validation verdict. -/
structure PostFormData where
  valid : Bool
  category : Nat
  is_published : Bool
  pub_date : Int
  text : String
deriving Repr, DecidableEq

/-- Submitted data bound to a `CommentForm`.
Modelled from the spec: `CommentForm` (blog/forms.py is excluded code). -/
structure CommentFormData where
  valid : Bool
  text : String
deriving Repr, DecidableEq

/-- Submitted data bound to a `ProfileForm`.
Modelled from the spec: `ProfileForm` (blog/forms.py is excluded code).
`submission` is the raw request body (`request.POST`), empty on a GET
request; `validNonempty` is the validation verdict for a non-empty
submission.  The spec states an empty submission fails validation. -/
structure ProfileFormData where
  submission : List (String × String)
  validNonempty : Bool
deriving Repr, DecidableEq

/-- Modelled from the spec: `ProfileForm.is_valid` — an empty submission
fails validation; a non-empty one validates per the excluded form rules. -/
def ProfileFormData.is_valid (f : ProfileFormData) : Bool :=
  !f.submission.isEmpty && f.validNonempty

/-- The responses a handler can produce.  Rendered pages carry the context
the Python handler passes to the template. -/
inductive Response where
  | notFound
  | redirect (t : Target)
  | renderIndex (page_obj : List Post)
  | renderCategory (category : Category) (page_obj : List Post)
  | renderDetail (post : Post) (comments : List Comment)
  | renderCreate (form : Option PostFormData) (instPost : Option Post)
  | renderProfile (profileUser : Nat) (page_obj : List Post)
  | renderUser (form : ProfileFormData)
  | renderComment (form : Option CommentFormData) (comment : Comment)
deriving Repr, DecidableEq

/-- Is the post's category published?  (`category__is_published=True`). -/
def categoryPublished (s : Store) (p : Post) : Bool :=
  match s.categories.find? (fun c => c.id == p.category) with
  | some c => c.is_published
  | none => false

/-- The default visibility test for a post.
Modelled from the spec: the "visible" filter of `blog.utils.query_post`
(excluded code) — published, category published, not future-dated. -/
def visible (s : Store) (now : Int) (p : Post) : Bool :=
  p.is_published && decide (p.pub_date ≤ now) && categoryPublished s p

/-- Modelled from the spec: `blog.utils.query_post` restricted to an
explicit source list (the `manager=` argument) — keeps exactly the posts
passing the default visibility filter, preserving order. -/
def query_post_from (s : Store) (now : Int) (posts : List Post) : List Post :=
  posts.filter (visible s now)

/-- Modelled from the spec: `blog.utils.query_post()` with the default
manager — all visible posts of the store. -/
def query_post (s : Store) (now : Int) : List Post :=
  query_post_from s now s.posts

/-- Page capacity of the pagination provider.
Modelled from the spec: the excluded pagination helper serves fixed-size
pages. -/
def PAGE_SIZE : Nat := 10

/-- Modelled from the spec: `blog.utils.posts_pagination` — returns the
requested page's slice of the given post list (pages are 1-based). -/
def posts_pagination (posts : List Post) (page : Nat) : List Post :=
  (posts.drop ((page - 1) * PAGE_SIZE)).take PAGE_SIZE

/-- Insert a comment into a list sorted by `created_at`. -/
def insertByCreated (c : Comment) : List Comment → List Comment
  | [] => [c]
  | d :: ds =>
      if c.created_at ≤ d.created_at then c :: d :: ds
      else d :: insertByCreated c ds

/-- Sort comments by `created_at` ascending (`order_by('created_at')`). -/
def sortByCreated : List Comment → List Comment
  | [] => []
  | c :: cs => insertByCreated c (sortByCreated cs)

/-- The comments of a post, oldest first (`post.comments.order_by('created_at')`). -/
def commentsOf (s : Store) (post_id : Nat) : List Comment :=
  sortByCreated (s.comments.filter (fun c => c.post == post_id))

/-- `index(request)`: render the front page with the visible posts,
paginated. -/
def index (s : Store) (now : Int) (page : Nat) : Response × Store :=
  (.renderIndex (posts_pagination (query_post s now) page), s)

/-- `category_posts(request, category_slug)`: 404 unless a published
category with the slug exists; then render its visible posts, paginated. -/
def category_posts (s : Store) (now : Int) (page : Nat) (category_slug : String) :
    Response × Store :=
  match s.categories.find? (fun c => c.slug == category_slug && c.is_published) with
  | none => (.notFound, s)
  | some category =>
      let page_obj := posts_pagination
        (query_post_from s now (s.posts.filter (fun p => p.category == category.id))) page
      (.renderCategory category page_obj, s)

/-- `post_detail(request, post_id)`: raw lookup by id (404 if absent);
a requester other than the author re-fetches through the visibility
filter (404 if hidden); then render the post with its comments. -/
def post_detail (s : Store) (requester : Option Nat) (now : Int) (post_id : Nat) :
    Response × Store :=
  match s.posts.find? (fun p => p.id == post_id) with
  | none => (.notFound, s)
  | some post0 =>
      let postV : Option Post :=
        if requester = some post0.author then some post0
        else (query_post s now).find? (fun p => p.id == post_id)
      match postV with
      | none => (.notFound, s)
      | some post => (.renderDetail post (commentsOf s post.id), s)

/-- The fresh primary key the store assigns a new post on save. -/
def freshPostId (s : Store) : Nat :=
  (s.posts.map Post.id).foldr max 0 + 1

/-- The fresh primary key the store assigns a new comment on save. -/
def freshCommentId (s : Store) : Nat :=
  (s.comments.map Comment.id).foldr max 0 + 1

/-- The post built by `form.save(commit=False)` followed by
`post.author = request.user` in `create_post`. -/
def newPostFrom (s : Store) (u : Nat) (form : PostFormData) : Post :=
  { id := freshPostId s
    author := u
    category := form.category
    is_published := form.is_published
    pub_date := form.pub_date
    text := form.text }

/-- `create_post(request)` (login required): on a valid form, save a new
post owned by the current user and redirect to that user's profile;
otherwise redisplay the form. -/
def create_post (s : Store) (u : Nat) (form : PostFormData) : Response × Store :=
  if form.valid then
    (.redirect (.profile u), { s with posts := s.posts ++ [newPostFrom s u form] })
  else
    (.renderCreate (some form) none, s)

/-- Overwrite a post's editable fields with a form's data (`form.save()`
on an instance-bound `PostForm`): id and author are untouched. -/
def applyPostForm (p : Post) (form : PostFormData) : Post :=
  { p with
    category := form.category
    is_published := form.is_published
    pub_date := form.pub_date
    text := form.text }

/-- `edit_post(request, post_id)` (login required): 404 if the post is
absent; a non-author is redirected to the detail page; on a valid form
the post is saved and the handler redirects to the detail page; otherwise
the form is redisplayed. -/
def edit_post (s : Store) (u : Nat) (post_id : Nat) (form : PostFormData) :
    Response × Store :=
  match s.posts.find? (fun p => p.id == post_id) with
  | none => (.notFound, s)
  | some post =>
      if u ≠ post.author then (.redirect (.postDetail post_id), s)
      else if form.valid then
        (.redirect (.postDetail post_id),
         { s with posts := s.posts.map (fun p => if p.id == post_id then applyPostForm p form else p) })
      else (.renderCreate (some form) (some post), s)

/-- `delete_post(request, post_id)` (login required): 404 if the post is
absent; a non-author is redirected to the detail page; a POST deletes the
post (the store cascades its comments) and redirects to the index;
a GET shows the confirmation form. -/
def delete_post (s : Store) (u : Nat) (method : Method) (post_id : Nat) :
    Response × Store :=
  match s.posts.find? (fun p => p.id == post_id) with
  | none => (.notFound, s)
  | some post =>
      if u ≠ post.author then (.redirect (.postDetail post_id), s)
      else
        match method with
        | .post =>
            (.redirect .index,
             { s with
               posts := s.posts.filter (fun p => p.id != post_id)
               comments := s.comments.filter (fun c => c.post != post_id) })
        | .get => (.renderCreate none (some post), s)

/-- `profile(request, username)`: 404 if the user is absent; list the
user's posts, visibility-filtered unless the viewer is that user.
The filtering switch is modelled from the spec (the `filters=` argument
of the excluded `query_post`). -/
def profile (s : Store) (requester : Option Nat) (now : Int) (page : Nat)
    (username : String) : Response × Store :=
  match s.users.find? (fun v => v.username == username) with
  | none => (.notFound, s)
  | some prof =>
      let own := s.posts.filter (fun p => p.author == prof.id)
      let posts := if requester = some prof.id then own else query_post_from s now own
      (.renderProfile prof.id (posts_pagination posts page), s)

/-- `edit_profile(request)` (login required): binds `request.POST`
unconditionally (empty on GET); a valid form is saved and the handler
redirects to the profile; otherwise the form page is redisplayed. -/
def edit_profile (s : Store) (u : Nat) (form : ProfileFormData) : Response × Store :=
  if ProfileFormData.is_valid form then
    (.redirect (.profile u),
     { s with users := s.users.map (fun v => if v.id == u then { v with profileData := form.submission } else v) })
  else
    (.renderUser form, s)

/-- The comment built by `form.save(commit=False)` followed by setting
`comment.post` and `comment.author` in `add_comment`. -/
def newCommentOn (s : Store) (u : Nat) (tnow : Nat) (post : Post)
    (form : CommentFormData) : Comment :=
  { id := freshCommentId s
    post := post.id
    author := u
    text := form.text
    created_at := tnow }

/-- `add_comment(request, post_id)` (login required): 404 if the post is
absent (no visibility filter); a valid form saves a comment on the post
owned by the current user; the handler redirects to the post's detail
page regardless of the validation outcome. -/
def add_comment (s : Store) (u : Nat) (tnow : Nat) (post_id : Nat)
    (form : CommentFormData) : Response × Store :=
  match s.posts.find? (fun p => p.id == post_id) with
  | none => (.notFound, s)
  | some post =>
      let s' :=
        if form.valid then { s with comments := s.comments ++ [newCommentOn s u tnow post form] }
        else s
      (.redirect (.postDetail post_id), s')

/-- `edit_comment(request, post_id, comment_id)` (login required): the
comment is looked up by its id alone; a non-author is redirected to the
supplied post id's detail page; a valid form saves the comment's text and
redirects there too; otherwise the bound form is redisplayed. -/
def edit_comment (s : Store) (u : Nat) (post_id comment_id : Nat)
    (form : CommentFormData) : Response × Store :=
  match s.comments.find? (fun c => c.id == comment_id) with
  | none => (.notFound, s)
  | some comment =>
      if u ≠ comment.author then (.redirect (.postDetail post_id), s)
      else if form.valid then
        (.redirect (.postDetail post_id),
         { s with comments := s.comments.map (fun c => if c.id == comment_id then { c with text := form.text } else c) })
      else (.renderComment (some form) comment, s)

/-- `delete_comment(request, post_id, comment_id)` (login required): the
comment is looked up by its id alone; a non-author is redirected to the
supplied post id's detail page; a POST deletes the comment and redirects
there too; a GET shows the confirmation page. -/
def delete_comment (s : Store) (u : Nat) (method : Method) (post_id comment_id : Nat) :
    Response × Store :=
  match s.comments.find? (fun c => c.id == comment_id) with
  | none => (.notFound, s)
  | some comment =>
      if u ≠ comment.author then (.redirect (.postDetail post_id), s)
      else
        match method with
        | .post =>
            (.redirect (.postDetail post_id),
             { s with comments := s.comments.filter (fun c => c.id != comment_id) })
        | .get => (.renderComment none comment, s)

/-- Replace the target of a post-detail redirect; leave every other
response untouched.  Used to compare handler responses across different
supplied post ids. -/
def retargetDetail (pid : Nat) : Response → Response
  | .redirect (.postDetail _) => .redirect (.postDetail pid)
  | r => r

/-! Sample rows used by the witness theorems. -/

/-- A published sample category. -/
def wCat : Category := { id := 1, slug := "misc", is_published := true }

/-- An unpublished sample category. -/
def wHiddenCat : Category := { id := 2, slug := "secret", is_published := false }

/-- A published sample post by user 2. -/
def wPost1 : Post :=
  { id := 1, author := 2, category := 1, is_published := true, pub_date := 0, text := "pub" }

/-- An unpublished (hidden) sample post by user 2. -/
def wPost2 : Post :=
  { id := 2, author := 2, category := 1, is_published := false, pub_date := 0, text := "draft" }

/-- A sample comment on post 1 by user 2. -/
def wComment : Comment := { id := 5, post := 1, author := 2, text := "hi", created_at := 3 }

/-- A small sample store. -/
def wStore : Store :=
  { posts := [wPost1, wPost2]
    comments := [wComment]
    categories := [wCat, wHiddenCat]
    users := [{ id := 2, username := "ann", profileData := [] }] }

/-- A valid sample post form. -/
def wPostForm : PostFormData :=
  { valid := true, category := 1, is_published := true, pub_date := 0, text := "edited" }

/-- A valid sample comment form. -/
def wCommentForm : CommentFormData := { valid := true, text := "yo" }

/-- An invalid sample comment form. -/
def wBadCommentForm : CommentFormData := { valid := false, text := "" }

/-- A sample store holding eleven visible posts, more than one page. -/
def wManyStore : Store :=
  { posts := (List.range 11).map (fun i =>
      { id := i + 1, author := 1, category := 1, is_published := true, pub_date := 0, text := "p" })
    comments := []
    categories := [wCat]
    users := [] }

/-- If a post is in the store, has a unique id there, and is not visible,
then the visibility-filtered lookup by its id finds nothing. -/
theorem find?_visible_eq_none (s : Store) (now : Int) (p : Post)
    (hwf : (s.posts.map Post.id).Nodup)
    (hmem : p ∈ s.posts)
    (hhid : visible s now p = false) :
    (query_post s now).find? (fun q => q.id == p.id) = none := by
  apply List.find?_eq_none.mpr
  intro x hx hbeq
  obtain ⟨hxmem, hxvis⟩ := List.mem_filter.mp hx
  have hid : x.id = p.id := by simpa using hbeq
  have hxp : x = p := List.inj_on_of_nodup_map hwf hxmem hmem hid
  rw [hxp, hhid] at hxvis
  exact Bool.noConfusion hxvis

/-- C1: for every mutating handler on a Post or a Comment (`edit_post`,
`delete_post`, `edit_comment`, `delete_comment`) and every authenticated
user who is not the target entity's author, the handler leaves the store
unchanged and returns a redirect to the entity's read-only detail view
(the post's own detail page; for a comment, the detail page of its parent
post, the supplied post id being the parent's), never an error. -/
theorem nonauthor_mutation_redirects
    (s : Store) (u pid cid : Nat) (p : Post) (c : Comment)
    (pform : PostFormData) (cform : CommentFormData) (m : Method)
    (hp : s.posts.find? (fun q => q.id == pid) = some p)
    (hup : u ≠ p.author)
    (hc : s.comments.find? (fun d => d.id == cid) = some c)
    (huc : u ≠ c.author)
    (_hcp : c.post = pid) :
    edit_post s u pid pform = (.redirect (.postDetail pid), s) ∧
    delete_post s u m pid = (.redirect (.postDetail pid), s) ∧
    edit_comment s u pid cid cform = (.redirect (.postDetail pid), s) ∧
    delete_comment s u m pid cid = (.redirect (.postDetail pid), s) := by
  refine ⟨?_, ?_, ?_, ?_⟩ <;>
    simp [edit_post, delete_post, edit_comment, delete_comment, hp, hc, hup, huc]

/-- Witness for C1 at a concrete store: user 3 is not the author of post 1
nor of comment 5, so all four handlers redirect and change nothing. -/
theorem nonauthor_mutation_redirects_witness :
    edit_post wStore 3 1 wPostForm = (.redirect (.postDetail 1), wStore) ∧
    delete_post wStore 3 .get 1 = (.redirect (.postDetail 1), wStore) ∧
    edit_comment wStore 3 1 5 wCommentForm = (.redirect (.postDetail 1), wStore) ∧
    delete_comment wStore 3 .get 1 5 = (.redirect (.postDetail 1), wStore) :=
  nonauthor_mutation_redirects wStore 3 1 5 wPost1 wComment wPostForm wCommentForm .get
    (by decide) (by decide) (by decide) (by decide) (by decide)

/-- C2: for a hidden post (invisible under the default filter) stored with
a unique id, a requester who is not the author gets not-found from
`post_detail`, while the author gets the rendered page containing the
post. -/
theorem post_detail_hidden_post
    (s : Store) (now : Int) (p : Post) (r : Option Nat)
    (hwf : (s.posts.map Post.id).Nodup)
    (hfind : s.posts.find? (fun q => q.id == p.id) = some p)
    (hhid : visible s now p = false) :
    (r ≠ some p.author → post_detail s r now p.id = (.notFound, s)) ∧
    (r = some p.author →
      post_detail s r now p.id = (.renderDetail p (commentsOf s p.id), s)) := by
  have hmem : p ∈ s.posts := List.mem_of_find?_eq_some hfind
  have hnone := find?_visible_eq_none s now p hwf hmem hhid
  constructor
  · intro hr
    simp [post_detail, hfind, hr, hnone]
  · intro hr
    simp [post_detail, hfind, hr]

/-- Witness for C2: post 2 of the sample store is unpublished; an
anonymous requester gets not-found from its detail page. -/
theorem post_detail_hidden_post_witness :
    post_detail wStore none 0 2 = (.notFound, wStore) :=
  (post_detail_hidden_post wStore 0 wPost2 none (by decide) (by decide) (by decide)).1
    (by decide)

/-- C3: `create_post` with a valid form appends exactly one post authored
by the current user and redirects to that user's profile; with an invalid
form it persists nothing and redisplays the form. -/
theorem create_post_ownership
    (s : Store) (u : Nat) (form : PostFormData) :
    (form.valid = true →
      create_post s u form =
        (.redirect (.profile u), { s with posts := s.posts ++ [newPostFrom s u form] }) ∧
      (newPostFrom s u form).author = u ∧
      (s.posts ++ [newPostFrom s u form]).length = s.posts.length + 1) ∧
    (form.valid = false →
      create_post s u form = (.renderCreate (some form) none, s)) := by
  constructor <;> intro h <;> simp [create_post, h, newPostFrom]

/-- Witness for C3 at a concrete store and a valid form: the new post's
author is user 7 and the handler redirects to user 7's profile. -/
theorem create_post_ownership_witness :
    create_post wStore 7 wPostForm =
      (.redirect (.profile 7), { wStore with posts := wStore.posts ++ [newPostFrom wStore 7 wPostForm] }) ∧
    (newPostFrom wStore 7 wPostForm).author = 7 ∧
    (wStore.posts ++ [newPostFrom wStore 7 wPostForm]).length = wStore.posts.length + 1 :=
  (create_post_ownership wStore 7 wPostForm).1 (by decide)

/-- C4: `add_comment` returns not-found for a nonexistent post id; for an
existing post it always redirects to that post's detail page — with an
invalid form it creates no comment, with a valid form it appends exactly
one comment whose post is the given post and whose author is the current
user. -/
theorem add_comment_redirects_always
    (s : Store) (u tnow pid : Nat) (form : CommentFormData) :
    (s.posts.find? (fun q => q.id == pid) = none →
      add_comment s u tnow pid form = (.notFound, s)) ∧
    (∀ p, s.posts.find? (fun q => q.id == pid) = some p →
      (form.valid = false →
        add_comment s u tnow pid form = (.redirect (.postDetail pid), s)) ∧
      (form.valid = true →
        add_comment s u tnow pid form =
          (.redirect (.postDetail pid),
           { s with comments := s.comments ++ [newCommentOn s u tnow p form] }) ∧
        (newCommentOn s u tnow p form).post = pid ∧
        (newCommentOn s u tnow p form).author = u)) := by
  constructor
  · intro hnone
    simp [add_comment, hnone]
  · intro p hp
    have hpid : p.id = pid := by simpa using List.find?_some hp
    constructor <;> intro hv <;>
      simp [add_comment, hp, hv, newCommentOn, hpid]

/-- Witness for C4: an invalid submission on existing post 1 changes
nothing yet still redirects to the detail page. -/
theorem add_comment_redirects_always_witness :
    add_comment wStore 3 9 1 wBadCommentForm = (.redirect (.postDetail 1), wStore) :=
  (((add_comment_redirects_always wStore 3 9 1 wBadCommentForm).2 wPost1 (by decide)).1)
    (by decide)

/-- C5: `edit_comment` and `delete_comment` resolve the comment by its id
alone: for any two supplied post ids (matching the comment's parent or
not) the store mutation is identical and the responses agree up to
substituting the supplied post id into the redirect target — the supplied
post id is never checked against the comment's parent post. -/
theorem comment_handlers_ignore_parent
    (s : Store) (u cid : Nat) (form : CommentFormData) (m : Method)
    (pid pid' : Nat) :
    (edit_comment s u pid cid form).2 = (edit_comment s u pid' cid form).2 ∧
    (delete_comment s u m pid cid).2 = (delete_comment s u m pid' cid).2 ∧
    retargetDetail pid' (edit_comment s u pid cid form).1 =
      (edit_comment s u pid' cid form).1 ∧
    retargetDetail pid' (delete_comment s u m pid cid).1 =
      (delete_comment s u m pid' cid).1 := by
  cases hfind : s.comments.find? (fun d => d.id == cid) with
  | none => simp [edit_comment, delete_comment, hfind, retargetDetail]
  | some c =>
    by_cases hu : u = c.author
    · cases m <;> cases hv : form.valid <;>
        simp [edit_comment, delete_comment, hfind, hu, hv, retargetDetail]
    · simp [edit_comment, delete_comment, hfind, hu, retargetDetail]

/-- C6: `category_posts` is not-found exactly when no published category
carries the requested slug; when the published category is found it
renders that category's visible posts, paginated. -/
theorem category_posts_not_found
    (s : Store) (now : Int) (page : Nat) (slug : String) :
    ((∀ c ∈ s.categories, c.slug = slug → c.is_published = false) →
      category_posts s now page slug = (.notFound, s)) ∧
    (∀ c, s.categories.find? (fun d => d.slug == slug && d.is_published) = some c →
      category_posts s now page slug =
        (.renderCategory c
          (posts_pagination
            (query_post_from s now (s.posts.filter (fun p => p.category == c.id))) page),
         s)) := by
  constructor
  · intro hall
    have hnone : s.categories.find? (fun d => d.slug == slug && d.is_published) = none := by
      apply List.find?_eq_none.mpr
      intro d hd hbd
      have hps : d.slug = slug ∧ d.is_published = true := by simpa using hbd
      have := hall d hd hps.1
      rw [this] at hps
      exact Bool.noConfusion hps.2
    simp [category_posts, hnone]
  · intro c hc
    simp [category_posts, hc]

/-- Witness for C6: the sample store's category with slug "secret" is
unpublished, so the category page is not-found. -/
theorem category_posts_not_found_witness :
    category_posts wStore 0 1 "secret" = (.notFound, wStore) :=
  (category_posts_not_found wStore 0 1 "secret").1 (by decide)

/-- C7: `edit_profile` binds the raw request body; on a GET the body is
empty, the bound form fails validation, and the handler neither saves nor
redirects — it re-renders the form page over the unchanged store. -/
theorem edit_profile_get_rerenders (s : Store) (u : Nat) (v : Bool) :
    ProfileFormData.is_valid { submission := [], validNonempty := v } = false ∧
    edit_profile s u { submission := [], validNonempty := v } =
      (.renderUser { submission := [], validNonempty := v }, s) := by
  constructor
  · simp [ProfileFormData.is_valid]
  · simp [edit_profile, ProfileFormData.is_valid]

/-- C8: `index` is deterministic in the store and request parameters, and
when the visible posts exceed one page's capacity the response carries
only the requested page's slice — at most a page's worth, strictly fewer
than all visible posts, and a sublist (same relative order) of the full
visible listing. -/
theorem index_pagination_bounded
    (s : Store) (now : Int) (page : Nat)
    (hmany : PAGE_SIZE < (query_post s now).length) :
    index s now page = index s now page ∧
    index s now page = (.renderIndex (posts_pagination (query_post s now) page), s) ∧
    (posts_pagination (query_post s now) page).length ≤ PAGE_SIZE ∧
    (posts_pagination (query_post s now) page).length < (query_post s now).length ∧
    (posts_pagination (query_post s now) page).Sublist (query_post s now) := by
  have hsub : (posts_pagination (query_post s now) page).Sublist (query_post s now) :=
    ((query_post s now).drop ((page - 1) * PAGE_SIZE)).take_sublist PAGE_SIZE
      |>.trans ((query_post s now).drop_sublist ((page - 1) * PAGE_SIZE))
  have hle : (posts_pagination (query_post s now) page).length ≤ PAGE_SIZE := by
    simp [posts_pagination]
  exact ⟨rfl, rfl, hle, lt_of_le_of_lt hle hmany, hsub⟩

/-- Witness for C8: the eleven-post sample store exceeds one page; page 1
of the index holds at most `PAGE_SIZE` posts and strictly fewer than all
visible posts. -/
theorem index_pagination_bounded_witness :
    (posts_pagination (query_post wManyStore 0) 1).length ≤ PAGE_SIZE ∧
    (posts_pagination (query_post wManyStore 0) 1).length < (query_post wManyStore 0).length :=
  ⟨(index_pagination_bounded wManyStore 0 1 (by decide)).2.2.1,
   (index_pagination_bounded wManyStore 0 1 (by decide)).2.2.2.1⟩

/-- C9: `add_comment` applies no visibility filter: on a hidden post with
a unique id, a non-author with a valid form gets a redirect and a comment
appended to that very post, even though `post_detail` answers not-found
to the same user. -/
theorem add_comment_ignores_visibility
    (s : Store) (u tnow : Nat) (now : Int) (p : Post) (form : CommentFormData)
    (hwf : (s.posts.map Post.id).Nodup)
    (hfind : s.posts.find? (fun q => q.id == p.id) = some p)
    (hhid : visible s now p = false)
    (hua : u ≠ p.author)
    (hv : form.valid = true) :
    add_comment s u tnow p.id form =
      (.redirect (.postDetail p.id),
       { s with comments := s.comments ++ [newCommentOn s u tnow p form] }) ∧
    (newCommentOn s u tnow p form).post = p.id ∧
    (newCommentOn s u tnow p form).author = u ∧
    post_detail s (some u) now p.id = (.notFound, s) := by
  have hmem : p ∈ s.posts := List.mem_of_find?_eq_some hfind
  have hnone := find?_visible_eq_none s now p hwf hmem hhid
  refine ⟨?_, rfl, rfl, ?_⟩
  · simp [add_comment, hfind, hv]
  · simp [post_detail, hfind, hua, hnone]

/-- Witness for C9: user 3 comments on hidden post 2 successfully while
its detail page is not-found for the same user. -/
theorem add_comment_ignores_visibility_witness :
    add_comment wStore 3 9 2 wCommentForm =
      (.redirect (.postDetail 2),
       { wStore with comments := wStore.comments ++ [newCommentOn wStore 3 9 wPost2 wCommentForm] }) ∧
    post_detail wStore (some 3) 0 2 = (.notFound, wStore) :=
  ⟨(add_comment_ignores_visibility wStore 3 9 0 wPost2 wCommentForm
      (by decide) (by decide) (by decide) (by decide) (by decide)).1,
   (add_comment_ignores_visibility wStore 3 9 0 wPost2 wCommentForm
      (by decide) (by decide) (by decide) (by decide) (by decide)).2.2.2⟩

/-- C10: `edit_post` and `delete_post` reveal post existence to a
forbidden user: a nonexistent id yields not-found while an existing
hidden post by another author yields a redirect to the detail page, and
the two responses are distinct. -/
theorem edit_delete_post_leak_existence
    (s : Store) (u : Nat) (now : Int) (pid pid' : Nat) (p : Post)
    (form : PostFormData) (m : Method)
    (hnone : s.posts.find? (fun q => q.id == pid) = none)
    (hsome : s.posts.find? (fun q => q.id == pid') = some p)
    (hhid : visible s now p = false)
    (hup : u ≠ p.author) :
    edit_post s u pid form = (.notFound, s) ∧
    delete_post s u m pid = (.notFound, s) ∧
    edit_post s u pid' form = (.redirect (.postDetail pid'), s) ∧
    delete_post s u m pid' = (.redirect (.postDetail pid'), s) ∧
    (∀ t : Target, (Response.notFound : Response) ≠ .redirect t) := by
  refine ⟨?_, ?_, ?_, ?_, ?_⟩
  · simp [edit_post, hnone]
  · simp [delete_post, hnone]
  · simp [edit_post, hsome, hup]
  · simp [delete_post, hsome, hup]
  · intro t h
    exact Response.noConfusion h

/-- Witness for C10: for user 3, editing absent post 99 is not-found
while editing hidden post 2 (owned by user 2) redirects. -/
theorem edit_delete_post_leak_existence_witness :
    edit_post wStore 3 99 wPostForm = (.notFound, wStore) ∧
    edit_post wStore 3 2 wPostForm = (.redirect (.postDetail 2), wStore) :=
  ⟨(edit_delete_post_leak_existence wStore 3 0 99 2 wPost2 wPostForm .get
      (by decide) (by decide) (by decide) (by decide)).1,
   (edit_delete_post_leak_existence wStore 3 0 99 2 wPost2 wPostForm .get
      (by decide) (by decide) (by decide) (by decide)).2.2.1⟩

end Blog
